import Mathlib

/-!
Shallow embedding of the chat client's reconciliation and connection logic
(pandaloves/chatApp): the message reconciler and optimistic-edit paths of
src/components/ChatRoom.tsx and the WebSocket service of
src/services/websocket.ts / src/services/api.ts.

Conventions of the embedding:
* timestamps are epoch milliseconds, i.e. the value the code obtains with
  new Date(ts).getTime(); ISO strings are represented by that value;
* JavaScript falsiness of optional numbers (0 is falsy) and optional strings
  (the empty string is falsy) is made explicit with jsOrInt / jsOrStr;
* the stable Array.prototype.sort with comparator
  (a, b) => ta - tb is modelled by List.mergeSort with the Boolean
  relation tsLe (ECMAScript sort is stable and sorts ascending);
* user ids arriving on the wire as strings are represented after parseInt.
-/

namespace ChatApp

/-- A conversation entry as constructed by the chat-room controller
(ChatRoom.tsx): the fields the reconciler builds and mutates. -/
structure Message where
  id : Int
  content : String
  senderId : Int
  senderUsername : String
  receiverId : Option Int
  receiverUsername : Option String
  messageType : String
  timestamp : Nat
  lastEdited : Option Nat
  isDeleted : Bool
deriving DecidableEq, Repr

/-- The wire envelope (ChatMessageDTO of types.ts): `sender` and `receiver`
are kept after parseInt; absent or empty optional strings are `none`. -/
structure ChatMessageDTO where
  id : Option Int
  content : String
  sender : Int
  senderUsername : Option String
  receiver : Option Int
  receiverUsername : Option String
  type : String
  timestamp : Option Nat
  lastEdited : Option Nat
  isRead : Option Bool
  isDeleted : Option Bool
deriving DecidableEq, Repr

/-- JavaScript `x || d` on an optional number: 0 is falsy. -/
def jsOrInt : Option Int → Int → Int
  | some v, d => if v = 0 then d else v
  | none, d => d

/-- JavaScript `x || d` on an optional string: the empty string is falsy. -/
def jsOrStr : Option String → String → String
  | some s, d => if s = "" then d else s
  | none, d => d

/-- JavaScript `x || d` where both sides are optional strings. -/
def jsOrOptStr : Option String → Option String → Option String
  | some s, d => if s = "" then d else some s
  | none, d => d

/-- The comparator (a, b) => new Date(a.timestamp).getTime() -
new Date(b.timestamp).getTime() passed to the stable Array.prototype.sort. -/
def tsLe (a b : Message) : Bool := a.timestamp ≤ b.timestamp

/-- JavaScript String.prototype.trim: strip leading and trailing
whitespace. -/
def jsTrim (s : String) : String :=
  ⟨((s.data.dropWhile Char.isWhitespace).reverse.dropWhile Char.isWhitespace).reverse⟩

/-- Conversion of an inbound envelope to a conversation entry, exactly the
object literal built in handleNewMessage for a non-edit, non-delete event. -/
def dtoToMessage (now : Nat) (message : ChatMessageDTO) : Message :=
  { id := jsOrInt message.id (Int.ofNat now)
    content := message.content
    senderId := message.sender
    senderUsername := jsOrStr message.senderUsername ("User" ++ toString message.sender)
    receiverId := message.receiver
    receiverUsername :=
      jsOrOptStr message.receiverUsername
        (message.receiver.map fun r => "User" ++ toString r)
    messageType := message.type
    timestamp := message.timestamp.getD now
    lastEdited := message.lastEdited
    isDeleted := message.isDeleted.getD false }

/-- handleNewMessage of ChatRoom.tsx: the state-update function run for every
inbound envelope.  MESSAGE_EDIT overwrites content and lastEdited in place;
MESSAGE_DELETE tombstones in place; anything else is treated as a created
message, dropped when its id is already present, otherwise appended and the
whole sequence re-sorted (stably) by timestamp. -/
def handleNewMessage (now : Nat) (message : ChatMessageDTO) (prev : List Message) :
    List Message :=
  if message.type = "MESSAGE_EDIT" then
    prev.map fun m =>
      if message.id = some m.id then
        { m with content := message.content, lastEdited := message.lastEdited }
      else m
  else if message.type = "MESSAGE_DELETE" then
    prev.map fun m =>
      if message.id = some m.id then
        { m with isDeleted := true, content := "This message was deleted" }
      else m
  else
    let newMessage := dtoToMessage now message
    if prev.any (fun m => m.id == newMessage.id) then prev
    else List.mergeSort (prev ++ [newMessage]) tsLe

/-- Folding a stream of inbound envelopes through handleNewMessage, i.e. the
conversation state after the events are delivered in the given order. -/
def deliverAll (now : Nat) (events : List ChatMessageDTO) (init : List Message) :
    List Message :=
  events.foldl (fun st e => handleNewMessage now e st) init

/-- Fingerprint key of removeDuplicates in ChatRoom.tsx: sender, receiver (a
falsy receiver id becomes "public"), content and timestamp millis. -/
def dedupKey (m : Message) : String :=
  toString m.senderId ++ "-" ++
    (match m.receiverId with
     | some r => if r = 0 then "public" else toString r
     | none => "public") ++ "-" ++ m.content ++ "-" ++ toString m.timestamp

/-- The filter pass of removeDuplicates: keep the first occurrence of each
fingerprint key. -/
def filterSeen : List Message → List String → List Message
  | [], _ => []
  | m :: rest, seen =>
    if seen.contains (dedupKey m) then filterSeen rest seen
    else m :: filterSeen rest (dedupKey m :: seen)

/-- removeDuplicates of ChatRoom.tsx: stable sort by timestamp, then drop
later entries with an already-seen fingerprint key. -/
def removeDuplicates (messages : List Message) : List Message :=
  filterSeen (List.mergeSort messages tsLe) []

/-- The provisional id Number of the concatenation
Date.now() + user.id + selectedUser.id used by handlePrivateMessageSend. -/
def concatDecimal (a b : Nat) : Nat := a * 10 ^ (toString b).length + b

/-- tempMessage.id in handlePrivateMessageSend. -/
def tempMessageId (now uid rid : Nat) : Int :=
  Int.ofNat (concatDecimal (concatDecimal now uid) rid)

/-- The provisional entry inserted by handlePrivateMessageSend. -/
def tempMessage (now uid : Nat) (uname : String) (rid : Nat) (rname : String)
    (content : String) : Message :=
  { id := tempMessageId now uid rid
    content := content
    senderId := Int.ofNat uid
    senderUsername := uname
    receiverId := some (Int.ofNat rid)
    receiverUsername := some rname
    messageType := "PRIVATE"
    timestamp := now
    lastEdited := none
    isDeleted := false }

/-- The duplicate guard of handlePrivateMessageSend: an entry with the same
id, or with the same content, sender and receiver, suppresses the insert. -/
def privateDupGuard (t : Message) (prev : List Message) : Bool :=
  prev.any fun m =>
    m.id == t.id ||
      (m.content == t.content && m.senderId == t.senderId &&
        m.receiverId == t.receiverId)

/-- handlePrivateMessageSend of ChatRoom.tsx, restricted to its state update:
the provisional entry is appended (no re-sort) unless the duplicate guard
fires. -/
def handlePrivateMessageSend (now uid : Nat) (uname : String) (rid : Nat)
    (rname : String) (content : String) (prev : List Message) : List Message :=
  let t := tempMessage now uid uname rid rname content
  if privateDupGuard t prev then prev else prev ++ [t]

/-- Outcome classifier for handleEditMessage, mirroring its snackbar paths. -/
inductive EditResult where
  | notFound
  | emptyContent
  | noChange
  | ok
  | failed
deriving DecidableEq, Repr

/-- Observable outcome of handleEditMessage: the final conversation state,
whether WebSocketService.editMessage (a network request) was invoked, and
which path was taken. -/
structure EditOutcome where
  state : List Message
  networkCall : Bool
  result : EditResult
deriving DecidableEq, Repr

/-- handleEditMessage of ChatRoom.tsx.  `serverOk` stands for the durable
request succeeding (its failure and an exception both take the same revert
path).  Local checks in source order: message lookup, empty/whitespace-only
content, unchanged content (the trimmed new content against the stored one);
then the optimistic apply, and on failure the map back to the snapshot. -/
def handleEditMessage (now : Nat) (serverOk : Bool) (messages : List Message)
    (messageId : Int) (newContent : String) : EditOutcome :=
  match messages.find? (fun m => m.id == messageId) with
  | none => ⟨messages, false, .notFound⟩
  | some messageToEdit =>
    if jsTrim newContent = "" then ⟨messages, false, .emptyContent⟩
    else if jsTrim newContent = messageToEdit.content then ⟨messages, false, .noChange⟩
    else
      let optimistic := messages.map fun msg =>
        if msg.id == messageId then
          { msg with content := newContent, lastEdited := some now }
        else msg
      if serverOk then ⟨optimistic, true, .ok⟩
      else
        ⟨optimistic.map (fun msg => if msg.id == messageId then messageToEdit else msg),
          true, .failed⟩

/-- State of the singleton WebSocketService (services/websocket.ts):
`clientGen` counts the Client objects constructed and activated (each opens
its own transport), `client` holds the current one. -/
structure WSState where
  clientGen : Nat
  client : Option Nat
  isConnected : Bool
  messageCallbacks : List Nat
  errorCallbacks : List Nat
  connectCallbacks : List Nat
  disconnectCallbacks : List Nat
  subscriptions : List String
deriving DecidableEq, Repr

/-- The freshly constructed service. -/
def WSState.initial : WSState := ⟨0, none, false, [], [], [], [], []⟩

/-- connect of services/websocket.ts (identical structure in services/api.ts):
pushes the two callbacks onto the registries, then unconditionally constructs
a fresh Client and activates it.  There is no guard on an existing client or
an established connection. -/
def wsConnect (cbMessage cbError : Nat) (st : WSState) : WSState :=
  { st with
    messageCallbacks := st.messageCallbacks ++ [cbMessage]
    errorCallbacks := st.errorCallbacks ++ [cbError]
    clientGen := st.clientGen + 1
    client := some st.clientGen }

/-- The onConnect handler: marks the service connected and (re)issues the
three subscriptions of setupSubscriptions. -/
def wsOnConnect (st : WSState) : WSState :=
  { st with isConnected := true, subscriptions := ["public", "private", "errors"] }

/-- A STOMP publish frame as built by the send methods. -/
structure Frame where
  destination : String
  content : String
  sender : Int
  receiver : Option Int
  type : String
deriving DecidableEq, Repr

/-- Observable outcome of a send method: the service state afterwards, the
frame published (if any), whether the console warning fired, and the error
callbacks invoked. -/
structure SendResult where
  state : WSState
  published : Option Frame
  warned : Bool
  errorsSignalled : List Nat
deriving DecidableEq, Repr

/-- sendPublicMessage of services/websocket.ts / services/api.ts. -/
def sendPublicMessage (st : WSState) (content : String) (senderId : Int) :
    SendResult :=
  if st.isConnected && st.client.isSome then
    ⟨st, some ⟨"/app/chat.public", content, senderId, none, "PUBLIC"⟩, false, []⟩
  else ⟨st, none, true, []⟩

/-- sendPrivateMessage of services/websocket.ts / services/api.ts. -/
def sendPrivateMessage (st : WSState) (content : String) (senderId receiverId : Int) :
    SendResult :=
  if st.isConnected && st.client.isSome then
    ⟨st, some ⟨"/app/chat.private", content, senderId, some receiverId, "PRIVATE"⟩,
      false, []⟩
  else ⟨st, none, true, []⟩

/-- The sortedness predicate the conversation sequence actually satisfies:
non-decreasing timestamps. -/
def SortedByTimestamp (st : List Message) : Prop :=
  st.Pairwise fun a b => a.timestamp ≤ b.timestamp

/-- The ordering the specification asserts: ascending (timestamp, id), ties
on equal timestamps broken by id. -/
def SortedByTsId (st : List Message) : Prop :=
  st.Pairwise fun a b =>
    a.timestamp < b.timestamp ∨ (a.timestamp = b.timestamp ∧ a.id ≤ b.id)

/-! ## Shared lemmas -/

theorem sortedByTimestamp_mergeSort (l : List Message) :
    SortedByTimestamp (List.mergeSort l tsLe) := by
  have h : (List.mergeSort l tsLe).Pairwise fun a b => tsLe a b := by
    apply List.sorted_mergeSort
    · intro a b c h1 h2
      simp only [tsLe, decide_eq_true_eq] at h1 h2 ⊢
      exact Nat.le_trans h1 h2
    · intro a b
      simp only [tsLe, Bool.or_eq_true, decide_eq_true_eq]
      exact Nat.le_total a.timestamp b.timestamp
  exact h.imp fun hab => by simpa [tsLe] using hab

theorem map_eq_self_of_fix {f : Message → Message} :
    ∀ {l : List Message}, (∀ a ∈ l, f a = a) → l.map f = l
  | [], _ => rfl
  | a :: l, h => by
    rw [List.map_cons, h a (List.mem_cons_self a l),
      map_eq_self_of_fix fun x hx => h x (List.mem_cons_of_mem a hx)]

theorem sortedByTimestamp_map {f : Message → Message}
    (hf : ∀ m, (f m).timestamp = m.timestamp) {l : List Message}
    (h : SortedByTimestamp l) : SortedByTimestamp (l.map f) :=
  h.map f fun a b hab => by rw [hf, hf]; exact hab

theorem sortedByTimestamp_handleNewMessage (now : Nat) (e : ChatMessageDTO)
    (st : List Message) (h : SortedByTimestamp st) :
    SortedByTimestamp (handleNewMessage now e st) := by
  unfold handleNewMessage
  split
  · exact sortedByTimestamp_map
      (fun m => by by_cases hc : e.id = some m.id <;> simp [hc]) h
  · split
    · exact sortedByTimestamp_map
        (fun m => by by_cases hc : e.id = some m.id <;> simp [hc]) h
    · dsimp only
      split
      · exact h
      · exact sortedByTimestamp_mergeSort _

/-! ## C1: ordering of the delivered conversation state -/

/-- Claim C1 (amended): for any stream of delivered message events, the
resulting conversation sequence is sorted non-decreasing by timestamp alone;
entries with equal timestamps are kept in arrival order (the sort is stable
and never compares ids), so the sequence is not in general sorted by
(timestamp, id) and does depend on arrival order when timestamps tie. -/
theorem deliverAll_sorted_by_timestamp (now : Nat) (events : List ChatMessageDTO) :
    SortedByTimestamp (deliverAll now events []) := by
  suffices h : ∀ (es : List ChatMessageDTO) (st : List Message),
      SortedByTimestamp st → SortedByTimestamp (deliverAll now es st) from
    h events [] List.Pairwise.nil
  intro es
  induction es with
  | nil => intro st hst; exact hst
  | cons e es ih =>
    intro st hst
    simp only [deliverAll, List.foldl_cons]
    exact ih _ (sortedByTimestamp_handleNewMessage now e st hst)

/-- Two broadcast envelopes that share the millisecond timestamp 100 but have
distinct ids 1 and 2. -/
def envTieA : ChatMessageDTO :=
  ⟨some 1, "a", 1, none, none, none, "PUBLIC", some 100, none, none, none⟩

def envTieB : ChatMessageDTO :=
  ⟨some 2, "b", 1, none, none, none, "PUBLIC", some 100, none, none, none⟩

unseal List.merge List.mergeSort in
/-- Counterexample to claim C1 as stated: delivering the same two messages in
the two possible orders yields two different sequences, and the sequence
obtained from the order [id 2, id 1] is not sorted by (timestamp, id). -/
theorem deliverAll_order_dependent_ctrex :
    deliverAll 7 [envTieB, envTieA] [] ≠ deliverAll 7 [envTieA, envTieB] [] ∧
    ¬ SortedByTsId (deliverAll 7 [envTieB, envTieA] []) := by
  constructor
  · decide
  · intro hs
    have he : deliverAll 7 [envTieB, envTieA] []
        = [dtoToMessage 7 envTieB, dtoToMessage 7 envTieA] := by decide
    rw [he] at hs
    unfold SortedByTsId at hs
    have h2 := List.rel_of_pairwise_cons hs (List.mem_singleton_self _)
    revert h2
    decide

/-! ## C4: duplicate Created delivery -/

theorem dtoToMessage_id (now : Nat) (e : ChatMessageDTO) {i : Int}
    (hid : e.id = some i) (hi : i ≠ 0) : (dtoToMessage now e).id = i := by
  simp [dtoToMessage, hid, jsOrInt, hi]

theorem handleNewMessage_created (now : Nat) (e : ChatMessageDTO) (st : List Message)
    (h1 : e.type ≠ "MESSAGE_EDIT") (h2 : e.type ≠ "MESSAGE_DELETE") :
    handleNewMessage now e st =
      if st.any (fun m => m.id == (dtoToMessage now e).id) then st
      else List.mergeSort (st ++ [dtoToMessage now e]) tsLe := by
  unfold handleNewMessage
  rw [if_neg h1, if_neg h2]

/-- Claim C4: delivering a Created envelope whose id is already present is
discarded.  If the state has no entry with the envelope's id, then after the
first delivery exactly one entry with that id is present, and a second
delivery of the same envelope returns the state unchanged. -/
theorem created_duplicate_discarded (now now2 : Nat) (e : ChatMessageDTO)
    (st : List Message) (i : Int)
    (h1 : e.type ≠ "MESSAGE_EDIT") (h2 : e.type ≠ "MESSAGE_DELETE")
    (hid : e.id = some i) (hi : i ≠ 0)
    (hfresh : st.countP (fun m => m.id == i) = 0) :
    handleNewMessage now2 e (handleNewMessage now e st) = handleNewMessage now e st ∧
    (handleNewMessage now e st).countP (fun m => m.id == i) = 1 := by
  have hidm : (dtoToMessage now e).id = i := dtoToMessage_id now e hid hi
  have hidm2 : (dtoToMessage now2 e).id = i := dtoToMessage_id now2 e hid hi
  have hnotin : ∀ m ∈ st, ¬ (m.id == i) = true := List.countP_eq_zero.mp hfresh
  have hany : (st.any fun m => m.id == (dtoToMessage now e).id) = false := by
    rw [hidm, List.any_eq_false]
    exact hnotin
  have hst1 : handleNewMessage now e st
      = List.mergeSort (st ++ [dtoToMessage now e]) tsLe := by
    rw [handleNewMessage_created now e st h1 h2, hany]
    simp
  constructor
  · rw [handleNewMessage_created now2 e _ h1 h2]
    have hmem : dtoToMessage now e ∈ handleNewMessage now e st := by
      rw [hst1, List.mem_mergeSort]
      exact List.mem_append_right st (List.mem_singleton_self _)
    have hany2 : ((handleNewMessage now e st).any
        fun m => m.id == (dtoToMessage now2 e).id) = true :=
      List.any_eq_true.mpr ⟨dtoToMessage now e, hmem, by rw [hidm, hidm2]; exact beq_self_eq_true i⟩
    rw [hany2]
    simp
  · rw [hst1, (List.mergeSort_perm _ _).countP_eq, List.countP_append, hfresh]
    simp [List.countP_cons, hidm]

/-- A concrete broadcast Created envelope with server id 42. -/
def envC4 : ChatMessageDTO :=
  ⟨some 42, "a", 1, none, none, none, "PUBLIC", some 100, none, none, none⟩

/-- Witness for C4 at a concrete input. -/
theorem created_duplicate_discarded_witness :
    handleNewMessage 5 envC4 (handleNewMessage 5 envC4 []) = handleNewMessage 5 envC4 [] ∧
    (handleNewMessage 5 envC4 []).countP (fun m => m.id == 42) = 1 :=
  created_duplicate_discarded 5 5 envC4 [] 42 (by decide) (by decide) rfl
    (by decide) (by decide)

/-! ## C7: frame property of an Edited event -/

/-- Claim C7: processing an Edited (MESSAGE_EDIT) event rewrites each entry
whose id matches to one that keeps id, sender, receiver, kind, timestamp and
deletion flag, changing only content and lastEdited; entries with any other
id are untouched; and if no entry has the event's id the state is unchanged. -/
theorem edited_event_frame (now : Nat) (e : ChatMessageDTO) (st : List Message)
    (he : e.type = "MESSAGE_EDIT") :
    handleNewMessage now e st =
      st.map (fun m =>
        if e.id = some m.id then
          { id := m.id, content := e.content, senderId := m.senderId,
            senderUsername := m.senderUsername, receiverId := m.receiverId,
            receiverUsername := m.receiverUsername, messageType := m.messageType,
            timestamp := m.timestamp, lastEdited := e.lastEdited,
            isDeleted := m.isDeleted }
        else m) ∧
    ((∀ m ∈ st, e.id ≠ some m.id) → handleNewMessage now e st = st) := by
  have hmain : handleNewMessage now e st =
      st.map (fun m =>
        if e.id = some m.id then
          { m with content := e.content, lastEdited := e.lastEdited }
        else m) := by
    unfold handleNewMessage
    rw [if_pos he]
  refine ⟨hmain, fun habs => ?_⟩
  rw [hmain]
  exact map_eq_self_of_fix fun m hm => if_neg (habs m hm)

/-- Concrete data for the C7 witness: an edit of id 5 in a two-entry state. -/
def envC7 : ChatMessageDTO :=
  ⟨some 5, "B", 1, none, none, none, "MESSAGE_EDIT", none, some 300, none, none⟩

def msgC7a : Message := ⟨5, "A", 1, "alice", none, none, "PUBLIC", 100, none, false⟩

def msgC7b : Message := ⟨6, "C", 2, "bob", none, none, "PUBLIC", 150, none, false⟩

/-- Witness for C7: the matching entry gets the new content and lastEdited at
its old position, the other entry is untouched. -/
theorem edited_event_frame_witness :
    handleNewMessage 9 envC7 [msgC7a, msgC7b] =
      [{ msgC7a with content := "B", lastEdited := some 300 }, msgC7b] := by
  rw [(edited_event_frame 9 envC7 [msgC7a, msgC7b] rfl).1]
  decide

/-! ## C8: frame property of a Deleted event -/

/-- Claim C8: processing a Deleted (MESSAGE_DELETE) event rewrites each entry
whose id matches to one with deleted=true and the deletion marker as content,
keeping id, sender, receiver, kind, timestamp and, in particular, lastEdited
untouched; entries with any other id are untouched; and if no entry has the
event's id the state is unchanged. -/
theorem deleted_event_frame (now : Nat) (e : ChatMessageDTO) (st : List Message)
    (he : e.type = "MESSAGE_DELETE") (hne : e.type ≠ "MESSAGE_EDIT") :
    handleNewMessage now e st =
      st.map (fun m =>
        if e.id = some m.id then
          { id := m.id, content := "This message was deleted", senderId := m.senderId,
            senderUsername := m.senderUsername, receiverId := m.receiverId,
            receiverUsername := m.receiverUsername, messageType := m.messageType,
            timestamp := m.timestamp, lastEdited := m.lastEdited,
            isDeleted := true }
        else m) ∧
    ((∀ m ∈ st, e.id ≠ some m.id) → handleNewMessage now e st = st) := by
  have hmain : handleNewMessage now e st =
      st.map (fun m =>
        if e.id = some m.id then
          { m with isDeleted := true, content := "This message was deleted" }
        else m) := by
    unfold handleNewMessage
    rw [if_neg hne, if_pos he]
  refine ⟨hmain, fun habs => ?_⟩
  rw [hmain]
  exact map_eq_self_of_fix fun m hm => if_neg (habs m hm)

/-- Concrete data for the C8 witness: deletion of id 5, where the entry has a
lastEdited value that must stay untouched. -/
def envC8 : ChatMessageDTO :=
  ⟨some 5, "", 1, none, none, none, "MESSAGE_DELETE", none, none, none, none⟩

def msgC8 : Message := ⟨5, "A", 1, "alice", none, none, "PUBLIC", 100, some 120, false⟩

/-- Witness for C8: the entry is tombstoned with marker content, lastEdited
kept, and the unrelated entry untouched. -/
theorem deleted_event_frame_witness :
    handleNewMessage 9 envC8 [msgC8, msgC7b] =
      [{ msgC8 with isDeleted := true, content := "This message was deleted" }, msgC7b] := by
  rw [(deleted_event_frame 9 envC8 [msgC8, msgC7b] rfl (by decide)).1]
  decide

/-! ## C3: edits after a tombstone -/

/-- Concrete replay for C3: create nothing, tombstone id 5, then edit id 5. -/
def msgC3 : Message := ⟨5, "A", 1, "alice", none, none, "PUBLIC", 100, none, false⟩

def envC3Delete : ChatMessageDTO :=
  ⟨some 5, "", 1, none, none, none, "MESSAGE_DELETE", none, none, none, none⟩

def envC3Edit : ChatMessageDTO :=
  ⟨some 5, "hax", 1, none, none, none, "MESSAGE_EDIT", none, some 200, none, none⟩

/-- Counterexample to claim C3 as stated: after Deleted{id=5} tombstones the
entry, a subsequent Edited{id=5} does change the displayed content again,
from the deletion marker to the edit's content. -/
theorem tombstone_then_edit_ctrex :
    handleNewMessage 0 envC3Delete [msgC3]
      = [{ msgC3 with isDeleted := true, content := "This message was deleted" }] ∧
    handleNewMessage 0 envC3Edit (handleNewMessage 0 envC3Delete [msgC3])
      = [{ msgC3 with isDeleted := true, content := "hax", lastEdited := some 200 }] ∧
    "hax" ≠ "This message was deleted" := by decide

/-- Claim C3 (amended): a tombstoned entry is not protected from later edit
events — processing an Edited event whose id matches a deleted entry
overwrites that entry's content and lastEdited while the deleted flag stays
true. -/
theorem edited_event_overwrites_tombstone (now : Nat) (e : ChatMessageDTO)
    (st : List Message) (m : Message)
    (he : e.type = "MESSAGE_EDIT") (hm : m ∈ st) (hid : e.id = some m.id)
    (hdel : m.isDeleted = true) :
    { m with content := e.content, lastEdited := e.lastEdited }
      ∈ handleNewMessage now e st ∧
    ({ m with content := e.content, lastEdited := e.lastEdited }).isDeleted = true := by
  refine ⟨?_, hdel⟩
  unfold handleNewMessage
  rw [if_pos he]
  have hmem := List.mem_map_of_mem
    (fun m =>
      if e.id = some m.id then
        { m with content := e.content, lastEdited := e.lastEdited }
      else m) hm
  simpa [hid] using hmem

/-- The tombstoned entry used by the C3 witness. -/
def msgC3Tomb : Message :=
  { msgC3 with isDeleted := true, content := "This message was deleted" }

/-- Witness for the amended C3 at a concrete input. -/
theorem edited_event_overwrites_tombstone_witness :
    { msgC3Tomb with content := "hax", lastEdited := some 200 }
      ∈ handleNewMessage 0 envC3Edit [msgC3Tomb] ∧
    ({ msgC3Tomb with content := "hax", lastEdited := some 200 }).isDeleted = true :=
  edited_event_overwrites_tombstone 0 envC3Edit [msgC3Tomb] msgC3Tomb rfl
    (List.mem_singleton_self _) rfl rfl

/-! ## C2: optimistic private send and the later Created envelope -/

theorem tempMessageId_pos (now uid rid : Nat) (hnow : 0 < now) :
    0 < tempMessageId now uid rid := by
  unfold tempMessageId concatDecimal
  refine Int.ofNat_pos.mpr ?_
  have h1 : 0 < now * 10 ^ (toString uid).length :=
    Nat.mul_pos hnow (pow_pos (by norm_num) _)
  have h2 : 0 < (now * 10 ^ (toString uid).length + uid) * 10 ^ (toString rid).length :=
    Nat.mul_pos (Nat.lt_of_lt_of_le h1 (Nat.le_add_right _ _)) (pow_pos (by norm_num) _)
  exact Nat.lt_of_lt_of_le h2 (Nat.le_add_right _ _)

/-- Claim C2 (amended): a private SendMessage inserts a provisional entry
whose locally-generated id is strictly positive (the decimal concatenation of
the client clock, sender id and receiver id), and a subsequently delivered
Created envelope with a fresh server id is inserted as a second, separate
entry — there is no fingerprint replacement, so both the provisional and the
server entry remain, one of each. -/
theorem private_send_then_created (now nowD : Nat) (uid rid : Nat)
    (uname rname content : String) (st : List Message) (e : ChatMessageDTO) (i : Int)
    (hnow : 0 < now)
    (hguard : privateDupGuard (tempMessage now uid uname rid rname content) st = false)
    (h1 : e.type ≠ "MESSAGE_EDIT") (h2 : e.type ≠ "MESSAGE_DELETE")
    (hid : e.id = some i) (hi : i ≠ 0)
    (hfresh : st.countP (fun m => m.id == i) = 0)
    (hneq : tempMessageId now uid rid ≠ i) :
    0 < tempMessageId now uid rid ∧
    (handleNewMessage nowD e
        (handlePrivateMessageSend now uid uname rid rname content st)).length
      = st.length + 2 ∧
    (handleNewMessage nowD e
        (handlePrivateMessageSend now uid uname rid rname content st)).countP
      (fun m => m.id == tempMessageId now uid rid) = 1 ∧
    (handleNewMessage nowD e
        (handlePrivateMessageSend now uid uname rid rname content st)).countP
      (fun m => m.id == i) = 1 := by
  have hsend : handlePrivateMessageSend now uid uname rid rname content st
      = st ++ [tempMessage now uid uname rid rname content] := by
    simp [handlePrivateMessageSend, hguard]
  have hidm : (dtoToMessage nowD e).id = i := dtoToMessage_id nowD e hid hi
  have htid : (tempMessage now uid uname rid rname content).id
      = tempMessageId now uid rid := rfl
  have hguardExp : (st.any fun m =>
      m.id == (tempMessage now uid uname rid rname content).id ||
        (m.content == (tempMessage now uid uname rid rname content).content &&
          m.senderId == (tempMessage now uid uname rid rname content).senderId &&
          m.receiverId == (tempMessage now uid uname rid rname content).receiverId))
      = false := hguard
  have hnot_t : ∀ m ∈ st,
      (m.id == (tempMessage now uid uname rid rname content).id) = false := by
    intro m hm
    have h := List.any_eq_false.mp hguardExp m hm
    rw [Bool.or_eq_true, not_or] at h
    exact Bool.eq_false_iff.mpr h.1
  have hany : ((st ++ [tempMessage now uid uname rid rname content]).any
      fun m => m.id == (dtoToMessage nowD e).id) = false := by
    rw [List.any_eq_false]
    intro m hm
    rcases List.mem_append.mp hm with hmst | hmt
    · rw [hidm]
      exact List.countP_eq_zero.mp hfresh m hmst
    · rw [List.mem_singleton] at hmt
      subst hmt
      rw [hidm, htid]
      simp [hneq]
  have hres : handleNewMessage nowD e
      (st ++ [tempMessage now uid uname rid rname content])
      = List.mergeSort ((st ++ [tempMessage now uid uname rid rname content])
          ++ [dtoToMessage nowD e]) tsLe := by
    rw [handleNewMessage_created nowD e _ h1 h2, hany]
    simp
  have hcst : st.countP (fun m => m.id == tempMessageId now uid rid) = 0 := by
    rw [List.countP_eq_zero]
    intro m hm
    rw [← htid, hnot_t m hm]
    simp
  refine ⟨tempMessageId_pos now uid rid hnow, ?_, ?_, ?_⟩
  · rw [hsend, hres, List.length_mergeSort]
    simp [List.length_append]
  · rw [hsend, hres, (List.mergeSort_perm _ _).countP_eq, List.countP_append,
      List.countP_append, hcst]
    have ht1 : ((tempMessage now uid uname rid rname content).id
        == tempMessageId now uid rid) = true := by
      rw [htid]; exact beq_self_eq_true _
    have hd0 : ((dtoToMessage nowD e).id == tempMessageId now uid rid) = false := by
      rw [hidm]
      simp
      intro hc
      exact hneq hc.symm
    simp [List.countP_cons, ht1, hd0]
  · rw [hsend, hres, (List.mergeSort_perm _ _).countP_eq, List.countP_append,
      List.countP_append, hfresh]
    have ht0 : ((tempMessage now uid uname rid rname content).id == i) = false := by
      rw [htid]; simp [hneq]
    have hd1 : ((dtoToMessage nowD e).id == i) = true := by
      rw [hidm]; exact beq_self_eq_true _
    simp [List.countP_cons, ht0, hd1]

/-- The Created envelope the server sends back for the optimistic private
message: server id 42, same sender, receiver and content. -/
def envC2 : ChatMessageDTO :=
  ⟨some 42, "hello", 1, some "alice", some 2, some "bob", "PRIVATE",
    some 1000, none, none, none⟩

unseal List.merge List.mergeSort in
/-- Counterexample to claim C2 as stated: the provisional id is not negative,
and after the Created envelope is delivered the conversation holds two
entries, not exactly one. -/
theorem private_send_negative_id_ctrex :
    ¬ tempMessageId 1000 1 2 < 0 ∧
    (handleNewMessage 1000 envC2
      (handlePrivateMessageSend 1000 1 "alice" 2 "bob" "hello" [])).length ≠ 1 := by
  decide

/-- Witness for the amended C2 at the concrete scenario of the spec. -/
theorem private_send_then_created_witness :
    0 < tempMessageId 1000 1 2 ∧
    (handleNewMessage 1000 envC2
      (handlePrivateMessageSend 1000 1 "alice" 2 "bob" "hello" [])).length = 2 ∧
    (handleNewMessage 1000 envC2
      (handlePrivateMessageSend 1000 1 "alice" 2 "bob" "hello" [])).countP
        (fun m => m.id == tempMessageId 1000 1 2) = 1 ∧
    (handleNewMessage 1000 envC2
      (handlePrivateMessageSend 1000 1 "alice" 2 "bob" "hello" [])).countP
        (fun m => m.id == 42) = 1 := by
  have h := private_send_then_created 1000 1000 1 2 "alice" "bob" "hello" [] envC2 42
    (by decide) (by decide) (by decide) (by decide) rfl (by decide) (by decide)
    (by decide)
  simpa using h

/-! ## C5: local rejection of no-op edits -/

/-- An entry whose stored content carries surrounding whitespace (reachable,
since edits store the new content untrimmed). -/
def msgC5 : Message := ⟨5, " A ", 1, "alice", none, none, "PUBLIC", 100, none, false⟩

/-- Counterexample to claim C5 as stated: editing with newContent identical
to the entry's current content " A " is NOT rejected — the trimmed comparison
misses it, the durable request is issued and the state changes (lastEdited is
set). -/
theorem noop_edit_ctrex :
    msgC5.content = " A " ∧
    (handleEditMessage 200 true [msgC5] 5 " A ").networkCall = true ∧
    (handleEditMessage 200 true [msgC5] 5 " A ").state ≠ [msgC5] := by
  decide

/-- Claim C5 (amended): an edit of a present entry is rejected locally — no
network call, state unchanged, a no-op signal — exactly when the TRIMMED new
content is empty or the TRIMMED new content equals the stored content. -/
theorem edit_noop_rejected (now : Nat) (serverOk : Bool) (st : List Message)
    (mid : Int) (m : Message) (newContent : String)
    (hfind : st.find? (fun x => x.id == mid) = some m)
    (h : jsTrim newContent = "" ∨ jsTrim newContent = m.content) :
    handleEditMessage now serverOk st mid newContent
      = ⟨st, false, if jsTrim newContent = "" then .emptyContent else .noChange⟩ := by
  simp only [handleEditMessage, hfind]
  by_cases h0 : jsTrim newContent = ""
  · rw [if_pos h0, if_pos h0]
  · rw [if_neg h0, if_neg h0, if_pos (h.resolve_left h0)]

/-- The entry used by the C5 witness. -/
def msgC5ok : Message := ⟨5, "A", 1, "alice", none, none, "PUBLIC", 100, none, false⟩

/-- Witness for the amended C5: content "A", edit "A " (trims to the stored
content) is rejected with no network call and unchanged state. -/
theorem edit_noop_rejected_witness :
    handleEditMessage 7 true [msgC5ok] 5 "A " = ⟨[msgC5ok], false, .noChange⟩ :=
  (edit_noop_rejected 7 true [msgC5ok] 5 msgC5ok "A " (by decide)
    (Or.inr (by decide))).trans (by decide)

/-! ## C6: rollback of a failed optimistic edit -/

/-- Claim C6: when the edit proceeds optimistically and the durable request
fails, the state is restored verbatim (the snapshot is mapped back over the
edited entry, so with unique ids the state equals the pre-edit state), the
failure is surfaced, and the network call did happen. -/
theorem edit_failure_rollback (now : Nat) (st : List Message) (mid : Int)
    (newContent : String) (m : Message)
    (hfind : st.find? (fun x => x.id == mid) = some m)
    (hne : jsTrim newContent ≠ "") (hch : jsTrim newContent ≠ m.content)
    (hnodup : (st.map Message.id).Nodup) :
    (handleEditMessage now false st mid newContent).state = st ∧
    (handleEditMessage now false st mid newContent).result = .failed ∧
    (handleEditMessage now false st mid newContent).networkCall = true := by
  have hred : handleEditMessage now false st mid newContent
      = ⟨(st.map fun msg =>
            if msg.id == mid then
              { msg with content := newContent, lastEdited := some now }
            else msg).map
          (fun msg => if msg.id == mid then m else msg), true, .failed⟩ := by
    simp only [handleEditMessage, hfind]
    rw [if_neg hne, if_neg hch]
    rfl
  have hm_mem : m ∈ st := List.mem_of_find?_eq_some hfind
  have hm_id : m.id = mid := by
    have := List.find?_some hfind
    simpa using this
  have hkey : ∀ x ∈ st, x.id = mid → x = m := fun x hx hxid =>
    List.inj_on_of_nodup_map hnodup hx hm_mem (by rw [hxid, hm_id])
  have hstate : (st.map fun msg =>
        if msg.id == mid then
          { msg with content := newContent, lastEdited := some now }
        else msg).map (fun msg => if msg.id == mid then m else msg) = st := by
    rw [List.map_map]
    apply map_eq_self_of_fix
    intro x hx
    simp only [Function.comp]
    by_cases hxid : x.id == mid
    · rw [if_pos hxid, if_pos hxid]
      exact (hkey x hx (by simpa using hxid)).symm
    · rw [if_neg hxid, if_neg hxid]
  rw [hred]
  exact ⟨hstate, rfl, rfl⟩

/-- Concrete two-entry state for the C6 witness. -/
def msgC6a : Message := ⟨5, "A", 1, "alice", none, none, "PUBLIC", 100, none, false⟩

def msgC6b : Message := ⟨6, "B", 2, "bob", none, none, "PUBLIC", 150, none, false⟩

/-- Witness for C6: EditMessage(5, "C") with a failing server restores the
two-entry state verbatim and surfaces the failure. -/
theorem edit_failure_rollback_witness :
    (handleEditMessage 9 false [msgC6a, msgC6b] 5 "C").state = [msgC6a, msgC6b] ∧
    (handleEditMessage 9 false [msgC6a, msgC6b] 5 "C").result = .failed ∧
    (handleEditMessage 9 false [msgC6a, msgC6b] 5 "C").networkCall = true :=
  edit_failure_rollback 9 [msgC6a, msgC6b] 5 "C" msgC6a (by decide) (by decide)
    (by decide) (by decide)

/-! ## C9: Connect while already connecting or connected -/

/-- A service state that has connected once: one Client constructed and
activated, handshake completed. -/
def stConnected : WSState := wsOnConnect (wsConnect 1 1 WSState.initial)

/-- Counterexample to claim C9 as stated: with the service already Connected,
a second connect call constructs and activates a second Client (a new
transport) and appends to the callback registries — it does not fail fast and
it does alter the registered callbacks. -/
theorem connect_no_fail_fast_ctrex :
    stConnected.isConnected = true ∧
    (wsConnect 2 2 stConnected).clientGen = stConnected.clientGen + 1 ∧
    (wsConnect 2 2 stConnected).messageCallbacks ≠ stConnected.messageCallbacks ∧
    (wsConnect 2 2 stConnected).client ≠ stConnected.client := by
  decide

/-- Claim C9 (amended): connect has no guard at all — in any state, even one
that is already connected, it appends the new callbacks to the registries and
constructs and activates a fresh Client, replacing the previous one. -/
theorem connect_unguarded (cbMessage cbError : Nat) (st : WSState)
    (_hconn : st.isConnected = true) :
    (wsConnect cbMessage cbError st).clientGen = st.clientGen + 1 ∧
    (wsConnect cbMessage cbError st).messageCallbacks
      = st.messageCallbacks ++ [cbMessage] ∧
    (wsConnect cbMessage cbError st).errorCallbacks
      = st.errorCallbacks ++ [cbError] ∧
    (wsConnect cbMessage cbError st).messageCallbacks ≠ st.messageCallbacks := by
  refine ⟨rfl, rfl, rfl, fun h => ?_⟩
  have hlen := congrArg List.length h
  simp [wsConnect] at hlen

/-- Witness for the amended C9 at the connected state. -/
theorem connect_unguarded_witness :
    (wsConnect 2 2 stConnected).clientGen = stConnected.clientGen + 1 ∧
    (wsConnect 2 2 stConnected).messageCallbacks
      = stConnected.messageCallbacks ++ [2] ∧
    (wsConnect 2 2 stConnected).errorCallbacks
      = stConnected.errorCallbacks ++ [2] ∧
    (wsConnect 2 2 stConnected).messageCallbacks ≠ stConnected.messageCallbacks :=
  connect_unguarded 2 2 stConnected rfl

/-! ## C10: sends while disconnected are silent no-ops -/

/-- Claim C10: when the connection status is false, sendPublicMessage and
sendPrivateMessage publish no frame, invoke no error callback, leave the
service state unchanged, and only emit the console warning. -/
theorem send_disconnected_silent (st : WSState) (content : String)
    (senderId receiverId : Int) (h : st.isConnected = false) :
    sendPublicMessage st content senderId = ⟨st, none, true, []⟩ ∧
    sendPrivateMessage st content senderId receiverId = ⟨st, none, true, []⟩ := by
  unfold sendPublicMessage sendPrivateMessage
  rw [h]
  simp

/-- Witness for C10 on the freshly constructed (disconnected) service. -/
theorem send_disconnected_silent_witness :
    sendPublicMessage WSState.initial "hi" 1 = ⟨WSState.initial, none, true, []⟩ ∧
    sendPrivateMessage WSState.initial "hi" 1 2
      = ⟨WSState.initial, none, true, []⟩ :=
  send_disconnected_silent WSState.initial "hi" 1 2 rfl

end ChatApp
